import Mathlib

/-!
# Verification of the SUZI reminder server core

Shallow embedding of the reminder dispatch engine, account-linking
protocol and signed webhook path of `src/public/sw.js` (which contains a
PWA service worker followed by two variants of the same Express server:
"variant 1" has a per-identity try/catch inside the cron tick, "variant 2"
adds env guards, a delayed cron start and credential guards in the LINE
helpers).

Times are modelled as `Int` milliseconds: a JavaScript `Date` is its
`getTime()` epoch value. The host process timezone is modelled as a fixed
UTC offset `o` in milliseconds (east positive); civil-field operations of
`Date` (`setHours`, locale formatting) are expressed through that offset.
-/

set_option maxRecDepth 40000

namespace Suzi

/-! ## Time helpers -/

/-- Milliseconds per day. -/
def msPerDay : Int := 86400000

/-- Milliseconds per hour. -/
def msPerHour : Int := 3600000

/-- The fixed UTC offset of `Asia/Tokyo` (UTC+9, no DST), in ms. -/
def tokyoOffset : Int := 9 * msPerHour

/-- Truncate an epoch-ms instant to whole seconds, as
`toLocaleString` renders no milliseconds. -/
def truncSec (t : Int) : Int := t - t.emod 1000

/-- `new Date(new Date().toLocaleString("en-US", { timeZone: "Asia/Tokyo" }))`
at wall-clock instant `t` on a host with UTC offset `o`: the Tokyo civil
time of `t` (seconds precision) is re-parsed as a civil time of the host
zone, yielding this epoch value. -/
def nowEpoch (t o : Int) : Int := truncSec t + tokyoOffset - o

/-- The civil-field value (local calendar milliseconds) that a host with
UTC offset `o` displays for the epoch instant `v`. -/
def hostCivil (v o : Int) : Int := v + o

/-- Midnight (00:00:00.000) of the civil day containing civil value `c`. -/
def dayFloor (c : Int) : Int := c - c.emod msPerDay

/-- `const m = new Date(eventTime); m.setHours(8, 0, 0, 0);` on a host
with UTC offset `o`: 08:00:00.000 of `eventTime`'s civil day, as an epoch
value. -/
def morningTime (o e : Int) : Int := dayFloor (hostCivil e o) + 8 * msPerHour - o

/-! ## Reminder records and the per-reminder tick -/

/-- One reminder record as stored at `reminders/{safeEmail}/{reminderId}`.
`timeISO` is the parsed event time (`new Date(r.timeISO).getTime()`). -/
structure Reminder where
  text : String
  timeISO : Int
  morning : Bool
  oneHour : Bool
  morningSent : Bool
  oneHourSent : Bool
  exactSent : Bool
deriving Repr, DecidableEq

/-- The three notification kinds of the evaluator. -/
inductive Trig where
  | morning
  | oneHour
  | exact
deriving Repr, DecidableEq

/-- The `*Sent` flag belonging to a trigger kind. -/
def sentFlag : Trig → Reminder → Bool
  | .morning, r => r.morningSent
  | .oneHour, r => r.oneHourSent
  | .exact, r => r.exactSent

/-- The feature flag enabling a trigger kind (`exact` is always on). -/
def enabledFlag : Trig → Reminder → Bool
  | .morning, r => r.morning
  | .oneHour, r => r.oneHour
  | .exact, _ => true

/-- The due condition a trigger kind tests inside the tick, given the
host offset `o` and the tick's `now` value. -/
def dueCond (o now : Int) : Trig → Reminder → Bool
  | .morning, r => decide (morningTime o r.timeISO ≤ now)
  | .oneHour, r => decide (r.timeISO - 60 * 60 * 1000 ≤ now)
  | .exact, r => decide (0 ≤ now - r.timeISO) && decide (now - r.timeISO < 10 * 60 * 1000)

/-- The message pushed when a trigger fires (`sendLine` body text). -/
def trigText : Trig → Reminder → String
  | .morning, r => "🌅 今日の予定:\n" ++ r.text
  | .oneHour, r => "⏰ 1時間前です:\n" ++ r.text
  | .exact, r => "🔔 時間になりました:\n" ++ r.text

/-- Set the `*Sent` flag of a trigger kind (the
`db.ref(.../xSent).set(true)` write). -/
def setSent : Trig → Reminder → Reminder
  | .morning, r => { r with morningSent := true }
  | .oneHour, r => { r with oneHourSent := true }
  | .exact, r => { r with exactSent := true }

/-- One trigger block of the tick body: fire (emit the push text and
persist the flag) when enabled, unsent and due. -/
def trigStep (o now : Int) (k : Trig) (r : Reminder) : Reminder × List (Trig × String) :=
  if enabledFlag k r && !sentFlag k r && dueCond o now k r then
    (setSent k r, [(k, trigText k r)])
  else
    (r, [])

/-- The three sequential trigger blocks the cron tick runs for one
reminder (both variants share this body: morning, then one-hour, then the
exact 10-minute window). Returns the persisted record and the pushes
emitted. -/
def tickReminder (o now : Int) (r : Reminder) : Reminder × List (Trig × String) :=
  let s1 := trigStep o now .morning r
  let s2 := trigStep o now .oneHour s1.1
  let s3 := trigStep o now .exact s2.1
  (s3.1, s1.2 ++ s2.2 ++ s3.2)

/-- Run the evaluator tick once per entry of `nows` (successive cron
wakeups), threading the persisted record, collecting all pushes. -/
def runTicks (o : Int) (nows : List Int) (r : Reminder) : Reminder × List (Trig × String) :=
  match nows with
  | [] => (r, [])
  | now :: rest =>
    let s := tickReminder o now r
    let t := runTicks o rest s.1
    (t.1, s.2 ++ t.2)

/-- Number of pushes of kind `k` in a send list. -/
def countTrig (k : Trig) (sends : List (Trig × String)) : Nat :=
  (sends.filter (fun p => p.1 = k)).length

/-! ## SHA-256, HMAC-SHA256 and base64

`verifySignature` calls `crypto.createHmac("sha256", LINE_SECRET)
.update(req.rawBody).digest("base64")`. The hash is embedded concretely
(FIPS 180-4 SHA-256, RFC 2104 HMAC, standard base64) so signature checks
evaluate on concrete inputs; the test-vector theorems further down check
the embedding against published digests. -/

def w32 : Nat := 4294967296

def add32 (a b : Nat) : Nat := (a + b) % w32

def rotr32 (n x : Nat) : Nat :=
  ((x >>> n) ||| (x <<< (32 - n))) % w32

def shr32 (n x : Nat) : Nat := x >>> n

def bsig0 (x : Nat) : Nat := (rotr32 2 x) ^^^ (rotr32 13 x) ^^^ (rotr32 22 x)
def bsig1 (x : Nat) : Nat := (rotr32 6 x) ^^^ (rotr32 11 x) ^^^ (rotr32 25 x)
def ssig0 (x : Nat) : Nat := (rotr32 7 x) ^^^ (rotr32 18 x) ^^^ (shr32 3 x)
def ssig1 (x : Nat) : Nat := (rotr32 17 x) ^^^ (rotr32 19 x) ^^^ (shr32 10 x)

def chF (x y z : Nat) : Nat := (x &&& y) ^^^ ((x ^^^ (w32 - 1)) &&& z)
def majF (x y z : Nat) : Nat := (x &&& y) ^^^ (x &&& z) ^^^ (y &&& z)

/-- The 64 SHA-256 round constants, written in decimal. -/
def shaK : List Nat :=
  [1116352408, 1899447441, 3049323471, 3921009573, 961987163, 1508970993,
   2453635748, 2870763221, 3624381080, 310598401, 607225278, 1426881987,
   1925078388, 2162078206, 2614888103, 3248222580, 3835390401, 4022224774,
   264347078, 604807628, 770255983, 1249150122, 1555081692, 1996064986,
   2554220882, 2821834349, 2952996808, 3210313671, 3336571891, 3584528711,
   113926993, 338241895, 666307205, 773529912, 1294757372, 1396182291,
   1695183700, 1986661051, 2177026350, 2456956037, 2730485921, 2820302411,
   3259730800, 3345764771, 3516065817, 3600352804, 4094571909, 275423344,
   430227734, 506948616, 659060556, 883997877, 958139571, 1322822218,
   1537002063, 1747873779, 1955562222, 2024104815, 2227730452, 2361852424,
   2428436474, 2756734187, 3204031479, 3329325298]

/-- The eight SHA-256 initial hash words, written in decimal. -/
def shaH0 : List Nat :=
  [1779033703, 3144134277, 1013904242, 2773480762, 1359893119, 2600822924,
   528734635, 1541459225]

/-- Big-endian 32-bit words from bytes (length a multiple of 4). -/
def bytesToWords : List Nat → List Nat
  | b0 :: b1 :: b2 :: b3 :: rest =>
    (((b0 * 256 + b1) * 256 + b2) * 256 + b3) :: bytesToWords rest
  | _ => []

/-- Big-endian bytes of one 32-bit word. -/
def wordToBytes (x : Nat) : List Nat :=
  [(x >>> 24) % 256, (x >>> 16) % 256, (x >>> 8) % 256, x % 256]

/-- SHA-256 padding: 0x80, zeros to 56 mod 64, 64-bit big-endian bit length. -/
def shaPad (msg : List Nat) : List Nat :=
  let len := msg.length
  let bitLen := 8 * len
  let zeros := (119 - len % 64) % 64
  msg ++ [0x80] ++ List.replicate zeros 0 ++
    [(bitLen >>> 56) % 256, (bitLen >>> 48) % 256, (bitLen >>> 40) % 256,
     (bitLen >>> 32) % 256, (bitLen >>> 24) % 256, (bitLen >>> 16) % 256,
     (bitLen >>> 8) % 256, bitLen % 256]

/-- Split a word list into 16-word blocks (structural recursion, so that
proofs can evaluate it definitionally). -/
def wordChunks : List Nat → List (List Nat)
  | w0 :: w1 :: w2 :: w3 :: w4 :: w5 :: w6 :: w7 ::
    w8 :: w9 :: w10 :: w11 :: w12 :: w13 :: w14 :: w15 :: rest =>
    [w0, w1, w2, w3, w4, w5, w6, w7, w8, w9, w10, w11, w12, w13, w14, w15] ::
      wordChunks rest
  | _ => []

/-- Extend the schedule by one word; `ws` holds the schedule so far in
reverse order (most recent first). -/
def schedStep (ws : List Nat) : List Nat :=
  add32 (add32 (ssig1 (ws.getD 1 0)) (ws.getD 6 0))
        (add32 (ssig0 (ws.getD 14 0)) (ws.getD 15 0)) :: ws

def schedExtend (ws : List Nat) : Nat → List Nat
  | 0 => ws
  | n + 1 => schedExtend (schedStep ws) n

/-- The 64-word message schedule of one block (given as 16 words). -/
def schedule (block : List Nat) : List Nat :=
  (schedExtend block.reverse 48).reverse

/-- One SHA-256 round; state is the 8-tuple `[a,b,c,d,e,f,g,h]`. -/
def roundStep (st : List Nat) (kw : Nat × Nat) : List Nat :=
  match st with
  | [a, b, c, d, e, f, g, h] =>
    let t1 := add32 (add32 (add32 h (bsig1 e)) (add32 (chF e f g) kw.1)) kw.2
    let t2 := add32 (bsig0 a) (majF a b c)
    [add32 t1 t2, a, b, c, add32 d t1, e, f, g]
  | st => st

/-- Compress one block (16 words) into the running hash. -/
def compressBlock (h : List Nat) (block : List Nat) : List Nat :=
  let ws := schedule block
  let st := (ws.zip shaK).foldl roundStep h
  (h.zip st).map (fun p => add32 p.1 p.2)

/-- SHA-256 of a byte list, as 32 bytes. -/
def sha256 (msg : List Nat) : List Nat :=
  ((wordChunks (bytesToWords (shaPad msg))).foldl compressBlock shaH0).flatMap wordToBytes

/-- UTF-8 encoding of one Unicode code point. -/
def utf8Encode (c : Nat) : List Nat :=
  if c < 0x80 then [c]
  else if c < 0x800 then
    [0xC0 ||| (c >>> 6), 0x80 ||| (c &&& 0x3F)]
  else if c < 0x10000 then
    [0xE0 ||| (c >>> 12), 0x80 ||| ((c >>> 6) &&& 0x3F), 0x80 ||| (c &&& 0x3F)]
  else
    [0xF0 ||| (c >>> 18), 0x80 ||| ((c >>> 12) &&& 0x3F),
     0x80 ||| ((c >>> 6) &&& 0x3F), 0x80 ||| (c &&& 0x3F)]

/-- UTF-8 bytes of a string (`crypto` interprets string keys as UTF-8). -/
def utf8Bytes (s : String) : List Nat :=
  s.data.flatMap (fun ch => utf8Encode ch.toNat)

/-- HMAC-SHA256 (`crypto.createHmac("sha256", key).update(msg)`). -/
def hmacSha256 (key msg : List Nat) : List Nat :=
  let k0 := if 64 < key.length then sha256 key else key
  let kp := k0 ++ List.replicate (64 - k0.length) 0
  let ipad := kp.map (fun b => b ^^^ 0x36)
  let opad := kp.map (fun b => b ^^^ 0x5c)
  sha256 (opad ++ sha256 (ipad ++ msg))

def b64Alphabet : List Char :=
  "ABCDEFGHIJKLMNOPQRSTUVWXYZabcdefghijklmnopqrstuvwxyz0123456789+/".toList

def b64Char (n : Nat) : Char := b64Alphabet.getD n 'A'

/-- Standard base64 encoding of a byte list (`.digest("base64")`). -/
def base64 : List Nat → List Char
  | b0 :: b1 :: b2 :: rest =>
    let n := (b0 * 256 + b1) * 256 + b2
    b64Char (n >>> 18) :: b64Char ((n >>> 12) % 64) :: b64Char ((n >>> 6) % 64) ::
      b64Char (n % 64) :: base64 rest
  | [b0, b1] =>
    let n := (b0 * 256 + b1) * 4
    [b64Char (n >>> 12), b64Char ((n >>> 6) % 64), b64Char (n % 64), '=']
  | [b0] =>
    let n := b0 * 16
    [b64Char (n >>> 6), b64Char (n % 64), '=', '=']
  | [] => []

/-- Base64-encoded HMAC-SHA256 with a string key: the value compared to
the `x-line-signature` header. -/
def hmacBase64 (secret : String) (body : List Nat) : String :=
  String.mk (base64 (hmacSha256 (utf8Bytes secret) body))

/-! ## Signature verification (both variants) -/

/-- JavaScript truthiness of an optional env string (`!LINE_SECRET` is
true for both `undefined` and `""`). -/
def jsFalsy : Option String → Bool
  | none => true
  | some s => s == ""

/-- Variant 2 `verifySignature` (guarded): returns `false` when
`LINE_SECRET` is falsy, otherwise compares the base64 HMAC of the raw
body with the `x-line-signature` header (`undefined` header compares
unequal). -/
def verifySignatureV2 (secret : Option String) (rawBody : List Nat)
    (sigHeader : Option String) : Bool :=
  match secret with
  | none => false
  | some s =>
    if s == "" then false
    else
      match sigHeader with
      | some sig => hmacBase64 s rawBody == sig
      | none => false

/-- Variant 1 `verifySignature` (unguarded): `crypto.createHmac` throws a
`TypeError` when the secret env var is absent. -/
def verifySignatureV1 (secret : Option String) (rawBody : List Nat)
    (sigHeader : Option String) : Except String Bool :=
  match secret with
  | none => .error "TypeError: crypto.createHmac key must not be undefined"
  | some s =>
    .ok (match sigHeader with
         | some sig => hmacBase64 s rawBody == sig
         | none => false)

/-! ## Link registry (the `pendingLinks` Map) -/

/-- One pending link: `pendingLinks.set(code, { email, expires })`. -/
structure PendingRec where
  email : String
  expires : Int
deriving Repr, DecidableEq

/-- The `pendingLinks` map as an association list in insertion order. -/
abbrev Registry := List (String × PendingRec)

/-- `pendingLinks.get(code)`. -/
def mapGet (m : Registry) (k : String) : Option PendingRec :=
  (m.find? (fun p => p.1 == k)).map (fun p => p.2)

/-- `pendingLinks.set(code, v)`: replace the binding if present, else
append. -/
def mapSet (m : Registry) (k : String) (v : PendingRec) : Registry :=
  if m.any (fun p => p.1 == k) then
    m.map (fun p => if p.1 == k then (k, v) else p)
  else
    m ++ [(k, v)]

/-- `pendingLinks.delete(code)`. -/
def mapDelete (m : Registry) (k : String) : Registry :=
  m.filter (fun p => p.1 != k)

/-- `POST /api/request-line-token` body after validation: store the
generated `code` with a 5-minute expiry. (`Math.floor(100000 +
Math.random()*900000).toString()` is external randomness; the generated
code is a parameter.) -/
def issue (m : Registry) (code email : String) (now : Int) : Registry :=
  mapSet m code { email := email, expires := now + 5 * 60 * 1000 }

/-- The webhook redemption core: `const record = pendingLinks.get(code);
if (record && Date.now() < record.expires)` then the email is used and
the entry deleted, else nothing (`NotFound`, modelled as `none`). -/
def redeem (m : Registry) (code : String) (now : Int) : Option (String × Registry) :=
  match mapGet m code with
  | some pr => if now < pr.expires then some (pr.email, mapDelete m code) else none
  | none => none

/-- The cron cleanup loop: `if (Date.now() > record.expires)
pendingLinks.delete(code)`. -/
def sweepExpired (m : Registry) (now : Int) : Registry :=
  m.filter (fun p => !(decide (p.2.expires < now)))

/-! ## Messaging gateway (`sendLine`, `reply`, variant 2) -/

/-- Outcome of the `fetch` to the LINE API: resolves ok, resolves with a
non-success status, or rejects (transport failure). -/
inductive FetchOutcome where
  | ok
  | notOk (body : String)
  | netErr (msg : String)
deriving Repr, DecidableEq

/-- Variant 2 `sendLine`: no-op on falsy token; the whole fetch is inside
`try/catch`, so every outcome returns normally (`.ok logs`). -/
def sendLine (token : Option String) (lineUserId text : String)
    (outcome : FetchOutcome) : Except String (List String) :=
  if jsFalsy token then .ok []
  else
    match outcome with
    | .ok => .ok []
    | .notOk b => .ok ["LINE API Error: " ++ b]
    | .netErr e => .ok ["❌ LINE push error: " ++ e]

/-- Variant 2 `reply`: no-op on falsy token; the `await fetch` has no
`try/catch`, so a transport rejection propagates to the caller, while a
non-success response is ignored (the response object is not inspected). -/
def reply (token : Option String) (replyToken text : String)
    (outcome : FetchOutcome) : Except String (List String) :=
  if jsFalsy token then .ok []
  else
    match outcome with
    | .ok => .ok []
    | .notOk _ => .ok []
    | .netErr e => .error e

/-! ## The evaluator's identity loop (both variants) -/

/-- A `line_links/{safeEmail}` record. -/
structure LinkRec where
  lineUserId : String
  linkedAt : Int
deriving Repr, DecidableEq

/-- The data of one identity inside a tick: its reminder records (a
`none` entry is a malformed record whose field access throws) and its
link snapshot (`none`: `linkSnap.exists()` is false). -/
structure IdentityData where
  safeEmail : String
  reminders : List (String × Option Reminder)
  link : Option LinkRec
deriving Repr, DecidableEq

/-- Process one identity of the tick body: skip when unlinked, else run
the three trigger blocks of each reminder, tagging pushes with the
identity's `lineUserId`. A malformed record raises (`.error`), as
`r.morning` on a null record throws a `TypeError`. -/
def processIdentity (o now : Int) (ident : IdentityData) :
    Except String (List (String × Trig × String)) :=
  match ident.link with
  | none => .ok []
  | some l =>
    ident.reminders.foldl
      (fun acc p =>
        match acc with
        | .error e => .error e
        | .ok sends =>
          match p.2 with
          | none => .error "TypeError: cannot read properties of null"
          | some r =>
            .ok (sends ++ (tickReminder o now r).2.map (fun q => (l.lineUserId, q))))
      (.ok [])

/-- Variant 1 identity loop: the per-identity `try/catch` logs the error
and continues with the next identity. -/
def tickV1 (o now : Int) (idents : List IdentityData) : List (String × Trig × String) :=
  idents.foldl
    (fun acc i =>
      match processIdentity o now i with
      | .ok s => acc ++ s
      | .error _ => acc)
    []

/-- Variant 2 identity loop: no `try/catch`, so the first error rejects
the whole tick, skipping every remaining identity. -/
def tickV2 (o now : Int) : List IdentityData → Except String (List (String × Trig × String))
  | [] => .ok []
  | i :: rest =>
    match processIdentity o now i with
    | .error e => .error e
    | .ok s => (tickV2 o now rest).map (fun t => s ++ t)

/-! ## The webhook route (`POST /line/webhook`, variant 2) -/

structure WebhookMsg where
  type : String
  text : String
deriving Repr, DecidableEq

/-- One entry of `req.body.events`; `message` is absent on non-message
events. -/
structure WebhookEvent where
  type : String
  message : Option WebhookMsg
  sourceUserId : String
  replyToken : String
deriving Repr, DecidableEq

/-- A webhook request: the exact raw body bytes the middleware captured,
the `x-line-signature` header, and the parsed event envelope. -/
structure WebhookReq where
  rawBody : List Nat
  sigHeader : Option String
  events : List WebhookEvent
deriving Repr, DecidableEq

/-- The persisted `line_links` table. -/
abbrev LinkStore := List (String × LinkRec)

def storeSet (st : LinkStore) (k : String) (v : LinkRec) : LinkStore :=
  if st.any (fun p => p.1 == k) then
    st.map (fun p => if p.1 == k then (k, v) else p)
  else
    st ++ [(k, v)]

def storeGet (st : LinkStore) (k : String) : Option LinkRec :=
  (st.find? (fun p => p.1 == k)).map (fun p => p.2)

/-- JavaScript `String.prototype.trim` whitespace (the characters that
occur in this protocol's inputs). -/
def isWS (c : Char) : Bool := c = ' ' || c = '\t' || c = '\n' || c = '\r'

/-- `text.trim()` (on the code-point list, so proofs evaluate it). -/
def jsTrim (s : String) : String :=
  String.mk (((s.data.dropWhile isWS).reverse.dropWhile isWS).reverse)

/-- `text.toUpperCase()` (ASCII, which covers the `LINK` keyword). -/
def jsToUpper (s : String) : String := String.mk (s.data.map Char.toUpper)

/-- `s.startsWith(pre)`. -/
def jsStartsWith (s pre : String) : Bool :=
  s.data.take pre.data.length == pre.data

/-- `record.email.replace(/\./g, "_")`. -/
def sanitizeEmail (e : String) : String :=
  String.mk (e.data.map (fun c => if c = '.' then '_' else c))

/-- `text.replace(/LINK /i, "").trim()`: under the
`text.toUpperCase().startsWith("LINK ")` guard the first case-insensitive
occurrence of `"LINK "` is the 5-character head, so this is drop 5 then
trim. -/
def stripLinkCode (t : String) : String := jsTrim (String.mk (t.data.drop 5))

deriving instance DecidableEq for Except

/-- The state and response after one webhook request. `outcome` is
`.ok status` for a sent response, `.error` for an uncaught rejection (the
response is never sent); state fields hold the mutations performed up to
that point. -/
structure WebhookResult where
  registry : Registry
  links : LinkStore
  replies : List (String × String)
  outcome : Except String Nat
deriving Repr, DecidableEq

/-- The `POST /line/webhook` handler (variant 2), with external effects
as parameters: `writeOk` is whether `db.ref(...).set` succeeds,
`replyOutcome` the fetch outcome of the `reply` call. -/
def handleWebhook (secret token : Option String) (req : WebhookReq)
    (reg : Registry) (links : LinkStore) (now : Int)
    (writeOk : Bool) (replyOutcome : FetchOutcome) : WebhookResult :=
  if !(verifySignatureV2 secret req.rawBody req.sigHeader) then
    ⟨reg, links, [], .ok 401⟩
  else
    match req.events.head? with
    | none => ⟨reg, links, [], .ok 200⟩
    | some ev =>
      if ev.type != "message" then ⟨reg, links, [], .ok 200⟩
      else
        match ev.message with
        | none => ⟨reg, links, [], .error "TypeError: cannot read type of undefined"⟩
        | some m =>
          if m.type != "text" then ⟨reg, links, [], .ok 200⟩
          else
            let text := jsTrim m.text
            if jsStartsWith (jsToUpper text) "LINK " then
              let code := stripLinkCode text
              match mapGet reg code with
              | some pr =>
                if now < pr.expires then
                  if writeOk then
                    let links2 := storeSet links (sanitizeEmail pr.email)
                      { lineUserId := ev.sourceUserId, linkedAt := now }
                    let reg2 := mapDelete reg code
                    let msg := "✅ 連携完了しました！\n登録メール: " ++ pr.email
                    match reply token ev.replyToken msg replyOutcome with
                    | .ok _ => ⟨reg2, links2, [(ev.replyToken, msg)], .ok 200⟩
                    | .error e => ⟨reg2, links2, [], .error e⟩
                  else
                    ⟨reg, links, [], .error "firebase set rejected"⟩
                else
                  let msg := "❌ 無効または期限切れのコードです。"
                  match reply token ev.replyToken msg replyOutcome with
                  | .ok _ => ⟨reg, links, [(ev.replyToken, msg)], .ok 200⟩
                  | .error e => ⟨reg, links, [], .error e⟩
              | none =>
                let msg := "❌ 無効または期限切れのコードです。"
                match reply token ev.replyToken msg replyOutcome with
                | .ok _ => ⟨reg, links, [(ev.replyToken, msg)], .ok 200⟩
                | .error e => ⟨reg, links, [], .error e⟩
            else
              ⟨reg, links, [], .ok 200⟩

/-- The discard guard of the webhook route: the first event is absent or
is (safely) not a plain text message event. -/
def nonTextEvent : Option WebhookEvent → Bool
  | none => true
  | some ev =>
    if ev.type != "message" then true
    else
      match ev.message with
      | some m => m.type != "text"
      | none => false

/-! ## The `now` computation of the tick (claim C3) -/

/-- Parsing a timezone-designator-free civil datetime string on a host
with UTC offset `o` (ECMA-262 interprets it as host-local time). -/
def parseZoneless (civil o : Int) : Int := civil - o

/-- One tick of the per-reminder body at wall-clock instant `t` on a host
with UTC offset `o`, with `now` computed by the locale-string round-trip. -/
def tickAtInstant (t o : Int) (r : Reminder) : Reminder × List (Trig × String) :=
  tickReminder o (nowEpoch t o) r

/-! ## Embedding sanity: published test vectors for the hash chain -/

/-- FIPS 180-4 test vector: SHA-256 of `"abc"`. -/
theorem sha256_abc_vector :
    sha256 (utf8Bytes "abc") =
      [0xba, 0x78, 0x16, 0xbf, 0x8f, 0x01, 0xcf, 0xea, 0x41, 0x41, 0x40, 0xde,
       0x5d, 0xae, 0x22, 0x23, 0xb0, 0x03, 0x61, 0xa3, 0x96, 0x17, 0x7a, 0x9c,
       0xb4, 0x10, 0xff, 0x61, 0xf2, 0x00, 0x15, 0xad] := by decide

/-- RFC 4231 test case 1: HMAC-SHA256 with a 20-byte `0x0b` key. -/
theorem hmac_rfc4231_case1 :
    hmacSha256 (List.replicate 20 0x0b) (utf8Bytes "Hi There") =
      [0xb0, 0x34, 0x4c, 0x61, 0xd8, 0xdb, 0x38, 0x53, 0x5c, 0xa8, 0xaf, 0xce,
       0xaf, 0x0b, 0xf1, 0x2b, 0x88, 0x1d, 0xc2, 0x00, 0xc9, 0x83, 0x3d, 0xa7,
       0x26, 0xe9, 0x37, 0x6c, 0x2e, 0x32, 0xcf, 0xf7] := by decide

/-- Known base64 HMAC-SHA256 value (key `"key"`, fox pangram). -/
theorem hmac_base64_vector :
    hmacBase64 "key" (utf8Bytes "The quick brown fox jumps over the lazy dog") =
      "97yD9DBThCSxMpjmqm+xQ+9NWaFJRhdZl0edvC0aPNg=" := by decide

/-! ## Lemmas about the per-reminder tick -/

theorem countTrig_append (k : Trig) (a b : List (Trig × String)) :
    countTrig k (a ++ b) = countTrig k a + countTrig k b := by
  simp [countTrig, List.filter_append]

theorem setSent_timeISO (j : Trig) (r : Reminder) :
    (setSent j r).timeISO = r.timeISO := by
  cases j <;> rfl

theorem sentFlag_setSent_self (k : Trig) (r : Reminder) :
    sentFlag k (setSent k r) = true := by
  cases k <;> rfl

theorem sentFlag_setSent_other (j k : Trig) (h : j ≠ k) (r : Reminder) :
    sentFlag k (setSent j r) = sentFlag k r := by
  cases j <;> cases k <;> first | rfl | exact absurd rfl h

theorem enabledFlag_setSent (j k : Trig) (r : Reminder) :
    enabledFlag k (setSent j r) = enabledFlag k r := by
  cases j <;> cases k <;> rfl

theorem dueCond_setSent (o now : Int) (j k : Trig) (r : Reminder) :
    dueCond o now k (setSent j r) = dueCond o now k r := by
  cases j <;> cases k <;> rfl

theorem text_setSent (j : Trig) (r : Reminder) : (setSent j r).text = r.text := by
  cases j <;> rfl

/-- The condition under which one trigger block fires. -/
def fireCond (o now : Int) (k : Trig) (r : Reminder) : Bool :=
  enabledFlag k r && !sentFlag k r && dueCond o now k r

theorem trigStep_fst (o now : Int) (k : Trig) (r : Reminder) :
    (trigStep o now k r).1 = if fireCond o now k r then setSent k r else r := by
  rw [trigStep, fireCond]; split <;> rfl

theorem trigStep_count_self (o now : Int) (k : Trig) (r : Reminder) :
    countTrig k (trigStep o now k r).2 = if fireCond o now k r then 1 else 0 := by
  rw [trigStep, fireCond]; split <;> simp [countTrig]

theorem trigStep_count_other (o now : Int) (j k : Trig) (h : j ≠ k) (r : Reminder) :
    countTrig k (trigStep o now j r).2 = 0 := by
  rw [trigStep]; split <;> simp [countTrig, h]

theorem trigStep_pres_sent (o now : Int) (j k : Trig) (h : j ≠ k) (r : Reminder) :
    sentFlag k (trigStep o now j r).1 = sentFlag k r := by
  rw [trigStep_fst]; split
  · exact sentFlag_setSent_other j k h r
  · rfl

theorem trigStep_pres_fire (o now m : Int) (j k : Trig) (h : j ≠ k) (r : Reminder) :
    fireCond o m k (trigStep o now j r).1 = fireCond o m k r := by
  rw [trigStep_fst]; split
  · rw [fireCond, fireCond, sentFlag_setSent_other j k h, enabledFlag_setSent, dueCond_setSent]
  · rfl

theorem trigStep_self_sent (o now : Int) (k : Trig) (r : Reminder) :
    sentFlag k (trigStep o now k r).1 = (sentFlag k r || fireCond o now k r) := by
  rw [trigStep_fst]; split
  · next hc => simp [hc, sentFlag_setSent_self]
  · next hc =>
    simp only [Bool.not_eq_true] at hc
    simp [hc]

/-- The `*Sent` flag after one tick: the old value or-ed with the fire
condition — flags move only from `false` to `true`. -/
theorem tick_sent (o now : Int) (k : Trig) (r : Reminder) :
    sentFlag k (tickReminder o now r).1 = (sentFlag k r || fireCond o now k r) := by
  cases k
  case morning =>
    rw [tickReminder,
        trigStep_pres_sent o now Trig.exact Trig.morning (by decide),
        trigStep_pres_sent o now Trig.oneHour Trig.morning (by decide),
        trigStep_self_sent o now Trig.morning r]
  case oneHour =>
    rw [tickReminder,
        trigStep_pres_sent o now Trig.exact Trig.oneHour (by decide),
        trigStep_self_sent,
        trigStep_pres_sent o now Trig.morning Trig.oneHour (by decide),
        trigStep_pres_fire o now now Trig.morning Trig.oneHour (by decide)]
  case exact =>
    rw [tickReminder,
        trigStep_self_sent,
        trigStep_pres_sent o now Trig.oneHour Trig.exact (by decide),
        trigStep_pres_sent o now Trig.morning Trig.exact (by decide),
        trigStep_pres_fire o now now Trig.oneHour Trig.exact (by decide),
        trigStep_pres_fire o now now Trig.morning Trig.exact (by decide)]

/-- The number of kind-`k` pushes of one tick: one exactly when the fire
condition holds. -/
theorem tick_count (o now : Int) (k : Trig) (r : Reminder) :
    countTrig k (tickReminder o now r).2 = if fireCond o now k r then 1 else 0 := by
  cases k
  case morning =>
    rw [tickReminder]
    simp only [countTrig_append]
    rw [trigStep_count_self o now Trig.morning r,
        trigStep_count_other o now Trig.oneHour Trig.morning (by decide),
        trigStep_count_other o now Trig.exact Trig.morning (by decide)]
    omega
  case oneHour =>
    rw [tickReminder]
    simp only [countTrig_append]
    rw [trigStep_count_self,
        trigStep_count_other o now Trig.morning Trig.oneHour (by decide),
        trigStep_count_other o now Trig.exact Trig.oneHour (by decide),
        trigStep_pres_fire o now now Trig.morning Trig.oneHour (by decide)]
    omega
  case exact =>
    rw [tickReminder]
    simp only [countTrig_append]
    rw [trigStep_count_self,
        trigStep_count_other o now Trig.morning Trig.exact (by decide),
        trigStep_count_other o now Trig.oneHour Trig.exact (by decide),
        trigStep_pres_fire o now now Trig.oneHour Trig.exact (by decide),
        trigStep_pres_fire o now now Trig.morning Trig.exact (by decide)]
    omega

theorem tick_sent_absorb (o now : Int) (k : Trig) (r : Reminder)
    (h : sentFlag k r = true) : sentFlag k (tickReminder o now r).1 = true := by
  rw [tick_sent, h, Bool.true_or]

theorem tick_count_zero (o now : Int) (k : Trig) (r : Reminder)
    (h : sentFlag k r = true) : countTrig k (tickReminder o now r).2 = 0 := by
  rw [tick_count]
  have : fireCond o now k r = false := by rw [fireCond, h]; simp
  rw [this]; rfl

theorem runTicks_count_zero (o : Int) (nows : List Int) (k : Trig) (r : Reminder)
    (h : sentFlag k r = true) : countTrig k (runTicks o nows r).2 = 0 := by
  induction nows generalizing r with
  | nil => rfl
  | cons now rest ih =>
    rw [runTicks]
    rw [countTrig_append, tick_count_zero o now k r h,
        ih _ (tick_sent_absorb o now k r h)]

/-! ## Claim theorems -/

/-- C1: for every reminder and every trigger kind, the evaluator mutates
the kind's `*Sent` flag only from false to true (new value = old value
or-ed with the fire condition, so a true flag is never reset), and
running the tick over `now :: rest` when the trigger is enabled, unsent
and due at `now` (each flag write succeeding, as `runTicks` persists it)
pushes that trigger's notification exactly once. -/
theorem evaluator_flag_monotone_fire_once (o now : Int) (rest : List Int)
    (k : Trig) (r : Reminder)
    (hEn : enabledFlag k r = true) (hUn : sentFlag k r = false)
    (hDue : dueCond o now k r = true) :
    (∀ m s, sentFlag k (tickReminder o m s).1 = (sentFlag k s || fireCond o m k s)) ∧
    countTrig k (runTicks o (now :: rest) r).2 = 1 := by
  have hFire : fireCond o now k r = true := by
    rw [fireCond, hEn, hUn, hDue]; rfl
  refine ⟨fun m s => tick_sent o m k s, ?_⟩
  rw [runTicks, countTrig_append, tick_count, hFire]
  have hs : sentFlag k (tickReminder o now r).1 = true := by
    rw [tick_sent, hFire, Bool.or_true]
  rw [runTicks_count_zero o rest k _ hs]
  simp

/-- Witness for C1: a reminder due at tick one is pushed exactly once
over three ticks. -/
theorem evaluator_flag_monotone_fire_once_witness :
    countTrig Trig.exact
      (runTicks 0 [0, 60000, 120000]
        ⟨"t", 0, false, false, false, false, false⟩).2 = 1 :=
  (evaluator_flag_monotone_fire_once 0 0 [60000, 120000] Trig.exact
    ⟨"t", 0, false, false, false, false, false⟩
    (by decide) (by decide) (by decide)).2

/-- C2: one tick pushes the exact trigger iff `exactSent` is false and
`0 ≤ now - eventTime < 10` minutes, and sets `exactSent` accordingly;
at the boundary, an event 9 min 59 s in the past fires and one
10 min 1 s in the past does not, even though unsent. -/
theorem exact_trigger_window :
    (∀ (o now : Int) (r : Reminder),
      countTrig Trig.exact (tickReminder o now r).2 =
        if r.exactSent = false ∧ 0 ≤ now - r.timeISO ∧ now - r.timeISO < 10 * 60 * 1000
        then 1 else 0) ∧
    (∀ (o now : Int) (r : Reminder),
      (tickReminder o now r).1.exactSent =
        (r.exactSent ||
          (decide (0 ≤ now - r.timeISO) && decide (now - r.timeISO < 10 * 60 * 1000)))) ∧
    countTrig Trig.exact (tickReminder 0 1000000000
      ⟨"e", 1000000000 - 599000, false, false, false, false, false⟩).2 = 1 ∧
    countTrig Trig.exact (tickReminder 0 1000000000
      ⟨"e", 1000000000 - 601000, false, false, false, false, false⟩).2 = 0 := by
  refine ⟨fun o now r => ?_, fun o now r => ?_, by decide, by decide⟩
  · rw [tick_count]
    simp only [fireCond, enabledFlag, sentFlag, dueCond, Bool.true_and]
    cases hE : r.exactSent <;> simp [and_assoc]
  · have h := tick_sent o now Trig.exact r
    simp only [sentFlag] at h
    rw [h]
    simp only [fireCond, enabledFlag, sentFlag, dueCond, Bool.true_and]
    cases hE : r.exactSent <;> simp

/-- C4: one tick pushes the morning trigger iff `morning` is set,
`morningSent` is false and `now` has reached 08:00:00.000 of the event's
civil day; with the event on the current civil day, 07:59:59 does not
fire and 08:00:00 fires. -/
theorem morning_trigger_spec :
    (∀ (o now : Int) (r : Reminder),
      countTrig Trig.morning (tickReminder o now r).2 =
        if r.morning = true ∧ r.morningSent = false ∧ morningTime o r.timeISO ≤ now
        then 1 else 0) ∧
    countTrig Trig.morning (tickReminder 0 (1728000000000 + 8 * 3600000 - 1000)
      ⟨"m", 1728000000000 + 12 * 3600000, true, false, false, false, false⟩).2 = 0 ∧
    countTrig Trig.morning (tickReminder 0 (1728000000000 + 8 * 3600000)
      ⟨"m", 1728000000000 + 12 * 3600000, true, false, false, false, false⟩).2 = 1 := by
  refine ⟨fun o now r => ?_, by decide, by decide⟩
  rw [tick_count]
  simp only [fireCond, enabledFlag, sentFlag, dueCond, Bool.and_eq_true,
    Bool.not_eq_true', decide_eq_true_eq]
  simp [and_assoc]

/-- C3 (amended): the civil fields the host renders for the computed
`now` equal the Tokyo civil time of the instant (to seconds precision) on
every host, and trigger evaluation is host-offset-independent whenever
`timeISO` parses as a host-local (zone-designator-free) civil time; the
counterexample shows it is not host-independent for an absolute
`timeISO`. -/
theorem now_computation_spec :
    (∀ t o, hostCivil (nowEpoch t o) o = truncSec t + tokyoOffset) ∧
    (∀ (t o1 o2 e : Int) (r : Reminder) (k : Trig),
      dueCond o1 (nowEpoch t o1) k { r with timeISO := parseZoneless e o1 } =
      dueCond o2 (nowEpoch t o2) k { r with timeISO := parseZoneless e o2 }) := by
  constructor
  · intro t o
    rw [hostCivil, nowEpoch]; ring
  · intro t o1 o2 e r k
    cases k <;>
      simp only [dueCond, nowEpoch, parseZoneless, morningTime, hostCivil, dayFloor,
        truncSec, tokyoOffset, msPerHour, msPerDay]
    · rw [decide_eq_decide]
      have h1 : e - o1 + o1 = e := by ring
      have h2 : e - o2 + o2 = e := by ring
      rw [h1, h2]
      omega
    · rw [decide_eq_decide]; omega
    · congr 1 <;> rw [decide_eq_decide] <;> omega

/-- Counterexample to C3 as stated: at the same wall-clock instant, a
host at UTC+9 fires the exact trigger of an epoch-0 event while a host at
UTC+0 does not — the triggers are not evaluated identically under
different host timezones. -/
theorem now_host_tz_dependent_cex :
    tickAtInstant 0 tokyoOffset ⟨"ev", 0, false, false, false, false, false⟩ ≠
    tickAtInstant 0 0 ⟨"ev", 0, false, false, false, false, false⟩ := by decide

theorem mapGet_mapDelete (m : Registry) (k : String) :
    mapGet (mapDelete m k) k = none := by
  induction m with
  | nil => rfl
  | cons p rest ih =>
    cases hpk : p.1 == k <;>
      simp [mapDelete, mapGet, List.filter, hpk, bne] at ih ⊢ <;>
      simpa [mapDelete, mapGet] using ih

/-- C5: `redeem` returns the bound email and removes the entry iff the
entry exists and `now < expiresAt`, and otherwise signals NotFound
(`none`, covering never-issued and expired alike); for an issued code,
redemption at `expiresAt - 1` ms succeeds once, a second redemption fails,
and redemption at `expiresAt + 1` ms fails. -/
theorem redeem_spec :
    (∀ (m : Registry) (code : String) (now : Int) (em : String) (m2 : Registry),
      redeem m code now = some (em, m2) ↔
        ∃ pr, mapGet m code = some pr ∧ now < pr.expires ∧
          em = pr.email ∧ m2 = mapDelete m code) ∧
    (∀ (m : Registry) (code : String) (now : Int),
      redeem m code now = none ↔
        ∀ pr, mapGet m code = some pr → pr.expires ≤ now) ∧
    (∀ (m : Registry) (code : String) (now : Int) (em : String) (m2 : Registry),
      redeem m code now = some (em, m2) → mapGet m2 code = none) ∧
    redeem (issue [] "123456" "a@x.com" 0) "123456" 299999 = some ("a@x.com", []) ∧
    redeem [] "123456" 299999 = none ∧
    redeem (issue [] "123456" "a@x.com" 0) "123456" 300001 = none := by
  refine ⟨fun m code now em m2 => ?_, fun m code now => ?_,
    fun m code now em m2 h => ?_, by decide, by decide, by decide⟩
  · cases hg : mapGet m code with
    | none => simp [redeem, hg]
    | some pr =>
      by_cases hlt : now < pr.expires <;>
        simp [redeem, hg, hlt, and_comm, eq_comm] <;> omega
  · cases hg : mapGet m code with
    | none => simp [redeem, hg]
    | some pr =>
      by_cases hlt : now < pr.expires <;> simp [redeem, hg, hlt] <;> omega
  · cases hg : mapGet m code with
    | none => simp [redeem, hg] at h
    | some pr =>
      simp only [redeem, hg] at h
      by_cases hlt : now < pr.expires
      · rw [if_pos hlt] at h
        have h2 : mapDelete m code = m2 := congrArg Prod.snd (Option.some.inj h)
        subst h2
        exact mapGet_mapDelete m code
      · rw [if_neg hlt] at h; simp at h

/-- Witness for C5: a successful redemption leaves no entry for the code. -/
theorem redeem_spec_witness :
    mapGet ([] : Registry) "123456" = none :=
  redeem_spec.2.2.1 (issue [] "123456" "a@x.com" 0) "123456" 299999 "a@x.com" []
    (by decide)

/-- C6 (amended): variant 2's `verifySignature` returns false (without
throwing) whenever the secret is absent or empty, and with a non-empty
secret accepts exactly the base64 HMAC-SHA256 of the raw body (a
signature over a different body is rejected); variant 1's unguarded
`verifySignature` throws when the secret is absent. -/
theorem verify_signature_spec :
    (∀ body sig, verifySignatureV2 none body sig = false) ∧
    (∀ body sig, verifySignatureV2 (some "") body sig = false) ∧
    (∀ (s : String) (body : List Nat) (sig : String), s ≠ "" →
      (verifySignatureV2 (some s) body (some sig) = true ↔ hmacBase64 s body = sig)) ∧
    (∀ body sig, (verifySignatureV1 none body sig).isOk = false) ∧
    verifySignatureV2 (some "s3cr3t") (utf8Bytes "alpha")
      (some (hmacBase64 "s3cr3t" (utf8Bytes "alpha"))) = true ∧
    verifySignatureV2 (some "s3cr3t") (utf8Bytes "alphb")
      (some (hmacBase64 "s3cr3t" (utf8Bytes "alpha"))) = false := by
  refine ⟨fun body sig => rfl, fun body sig => by simp [verifySignatureV2],
    fun s body sig hs => ?_, fun body sig => rfl, by decide, by decide⟩
  have hb : (s == "") = false := beq_eq_false_iff_ne.mpr hs
  simp [verifySignatureV2, hb, beq_iff_eq]

/-- Witness for C6: a matching signature is accepted for a non-empty
secret. -/
theorem verify_signature_spec_witness :
    verifySignatureV2 (some "k") (utf8Bytes "m")
        (some (hmacBase64 "k" (utf8Bytes "m"))) = true ↔
      hmacBase64 "k" (utf8Bytes "m") = hmacBase64 "k" (utf8Bytes "m") :=
  verify_signature_spec.2.2.1 "k" (utf8Bytes "m") (hmacBase64 "k" (utf8Bytes "m"))
    (by decide)

/-- Counterexample to C6 as stated: variant 1's `verifySignature` with an
absent secret does not return false — `crypto.createHmac` throws. -/
theorem verify_v1_throws_cex :
    verifySignatureV1 none (utf8Bytes "body") (some "sig") =
        .error "TypeError: crypto.createHmac key must not be undefined" ∧
      verifySignatureV1 none (utf8Bytes "body") (some "sig") ≠ .ok false := by
  exact ⟨rfl, by decide⟩

/-- C7 (amended): in variant 1's tick an identity whose processing throws
is skipped and the remaining identities are still evaluated, while in
variant 2's tick (no per-identity try/catch) the same error rejects the
whole tick, skipping every remaining identity. -/
theorem tick_error_isolation :
    (∀ (o now : Int) (a : IdentityData) (rest : List IdentityData) (e : String),
      processIdentity o now a = .error e →
      tickV1 o now (a :: rest) = tickV1 o now rest) ∧
    (∀ (o now : Int) (a : IdentityData) (rest : List IdentityData) (e : String),
      processIdentity o now a = .error e →
      tickV2 o now (a :: rest) = .error e) := by
  constructor
  · intro o now a rest e h
    simp [tickV1, h]
  · intro o now a rest e h
    simp [tickV2, h]

/-- A linked identity whose only reminder record is malformed (field
access throws). -/
def identA : IdentityData :=
  ⟨"a_x_com", [("r1", none)], some ⟨"U_A", 0⟩⟩

/-- A linked identity with one due, unsent reminder. -/
def identB : IdentityData :=
  ⟨"b_x_com", [("r2", some ⟨"meeting", 0, false, false, false, false, false⟩)],
    some ⟨"U_B", 0⟩⟩

/-- Counterexample to C7 as stated: in variant 2's tick, identity A's
malformed record aborts the whole sweep, so identity B's due reminder
does not fire — variant 1's tick fires it. -/
theorem tick_v2_abort_cex :
    (tickV2 0 0 [identA, identB]).isOk = false ∧
    tickV1 0 0 [identA, identB] =
      [("U_B", Trig.exact, "🔔 時間になりました:\nmeeting")] := by decide

/-- Witness for C7: dropping the failing identity A leaves variant 1's
output unchanged. -/
theorem tick_error_isolation_witness :
    tickV1 0 0 [identA, identB] = tickV1 0 0 [identB] :=
  tick_error_isolation.1 0 0 identA [identB]
    "TypeError: cannot read properties of null" (by decide)

/-- C8 (amended): `sendLine` returns normally on every outcome and is a
no-op without a token; `reply` is a no-op without a token and ignores a
non-success response, but a transport failure in `reply` propagates to
the caller (there is no try/catch around its fetch). -/
theorem gateway_failure_handling :
    (∀ (tok : Option String) (uid txt : String) (oc : FetchOutcome),
      (sendLine tok uid txt oc).isOk = true) ∧
    (∀ (uid txt : String) (oc : FetchOutcome), sendLine none uid txt oc = .ok []) ∧
    (∀ (uid txt : String) (oc : FetchOutcome), sendLine (some "") uid txt oc = .ok []) ∧
    (∀ (rt txt : String) (oc : FetchOutcome), reply none rt txt oc = .ok []) ∧
    (∀ (rt txt : String) (oc : FetchOutcome), reply (some "") rt txt oc = .ok []) ∧
    (∀ (tok : Option String) (rt txt b : String), reply tok rt txt (.notOk b) = .ok []) ∧
    (∀ (tok rt txt e : String), reply (some tok) rt txt (.netErr e) =
      if tok == "" then .ok [] else .error e) := by
  refine ⟨?_, ?_, ?_, ?_, ?_, ?_, ?_⟩
  · intro tok uid txt oc
    cases tok with
    | none => rfl
    | some s =>
      cases hs : (s == "") <;> cases oc <;>
        simp [sendLine, jsFalsy, hs, Except.isOk, Except.toBool]
  · intro uid txt oc; rfl
  · intro uid txt oc; rfl
  · intro rt txt oc; rfl
  · intro rt txt oc; rfl
  · intro tok rt txt b
    cases tok with
    | none => rfl
    | some s => cases hs : (s == "") <;> simp [reply, jsFalsy, hs]
  · intro tok rt txt e
    cases hs : (tok == "") <;> simp [reply, jsFalsy, hs]

/-- Counterexample to C8 as stated: a transport failure in `reply`
propagates to the caller instead of being logged and swallowed. -/
theorem reply_transport_cex :
    reply (some "token") "rt" "hello" (.netErr "fetch rejected") =
      .error "fetch rejected" := by decide

/-- C9: a correctly signed webhook request whose first event is absent or
is not a plain text message event is answered 200 with no reply attempt,
no registry mutation and no persisted link. -/
theorem webhook_nontext_noop (secret token : Option String) (req : WebhookReq)
    (reg : Registry) (links : LinkStore) (now : Int) (writeOk : Bool)
    (oc : FetchOutcome)
    (hSig : verifySignatureV2 secret req.rawBody req.sigHeader = true)
    (hEv : nonTextEvent req.events.head? = true) :
    handleWebhook secret token req reg links now writeOk oc =
      ⟨reg, links, [], .ok 200⟩ := by
  rw [handleWebhook, hSig]
  cases hE : req.events.head? with
  | none => simp
  | some ev =>
    rw [hE] at hEv
    cases hTy : (ev.type != "message") with
    | true => simp [hTy]
    | false =>
      simp only [nonTextEvent, hTy, Bool.false_eq_true, if_false] at hEv
      cases hm : ev.message with
      | none => rw [hm] at hEv; simp at hEv
      | some m =>
        rw [hm] at hEv
        simp only [] at hEv
        simp [hTy, hm, hEv]

/-- Witness for C9: a signed sticker event is acknowledged and discarded. -/
theorem webhook_nontext_noop_witness :
    handleWebhook (some "s") (some "tok")
        ⟨utf8Bytes "evbody", some (hmacBase64 "s" (utf8Bytes "evbody")),
          [⟨"message", some ⟨"sticker", ""⟩, "U1", "rt"⟩]⟩ [] [] 0 true .ok =
      ⟨[], [], [], .ok 200⟩ :=
  webhook_nontext_noop (some "s") (some "tok") _ [] [] 0 true .ok
    (by decide) (by decide)

theorem storeGet_replace (st : LinkStore) (k : String) (v : LinkRec)
    (h : st.any (fun p => p.1 == k) = true) :
    storeGet (st.map (fun p => if p.1 == k then (k, v) else p)) k = some v := by
  induction st with
  | nil => simp at h
  | cons p rest ih =>
    cases hpk : (p.1 == k) with
    | true => simp [storeGet, List.find?, hpk]
    | false =>
      have h2 : rest.any (fun p => p.1 == k) = true := by
        simpa [List.any_cons, hpk] using h
      have ih2 := ih h2
      rw [storeGet] at ih2 ⊢
      simpa [List.find?, hpk] using ih2

theorem storeGet_append_new (st : LinkStore) (k : String) (v : LinkRec)
    (h : st.any (fun p => p.1 == k) = false) :
    storeGet (st ++ [(k, v)]) k = some v := by
  induction st with
  | nil => simp [storeGet, List.find?]
  | cons p rest ih =>
    have hpk : (p.1 == k) = false := by
      cases hpk2 : (p.1 == k) with
      | false => rfl
      | true => rw [List.any_cons, hpk2] at h; simp at h
    have h2 : rest.any (fun p => p.1 == k) = false := by
      rw [List.any_cons, hpk] at h
      simpa using h
    have ih2 := ih h2
    rw [storeGet] at ih2 ⊢
    simpa [List.find?, hpk] using ih2

theorem storeGet_storeSet (st : LinkStore) (k : String) (v : LinkRec) :
    storeGet (storeSet st k v) k = some v := by
  cases h : st.any (fun p => p.1 == k) with
  | true =>
    rw [storeSet, if_pos h]
    exact storeGet_replace st k v h
  | false =>
    rw [storeSet, if_neg (by simp [h])]
    exact storeGet_append_new st k v h

/-- C10: in the webhook redemption path the registry entry is deleted
only after the `LinkRecord` is persisted: a failing store write leaves
the registry (and store) unchanged with the code still redeemable, while
a successful write deletes the entry and has persisted the record. -/
theorem redemption_persist_before_delete
    (secret token : Option String) (req : WebhookReq) (reg : Registry)
    (links : LinkStore) (now : Int) (oc : FetchOutcome)
    (ev : WebhookEvent) (m : WebhookMsg) (pr : PendingRec)
    (hSig : verifySignatureV2 secret req.rawBody req.sigHeader = true)
    (hEv : req.events.head? = some ev)
    (hTy : ev.type = "message")
    (hMsg : ev.message = some m)
    (hMTy : m.type = "text")
    (hLink : jsStartsWith (jsToUpper (jsTrim m.text)) "LINK " = true)
    (hGet : mapGet reg (stripLinkCode (jsTrim m.text)) = some pr)
    (hExp : now < pr.expires) :
    handleWebhook secret token req reg links now false oc =
      ⟨reg, links, [], .error "firebase set rejected"⟩ ∧
    (redeem reg (stripLinkCode (jsTrim m.text)) now).isSome = true ∧
    (handleWebhook secret token req reg links now true oc).registry =
      mapDelete reg (stripLinkCode (jsTrim m.text)) ∧
    storeGet (handleWebhook secret token req reg links now true oc).links
      (sanitizeEmail pr.email) = some ⟨ev.sourceUserId, now⟩ := by
  refine ⟨?_, ?_, ?_, ?_⟩
  · rw [handleWebhook, hSig]
    simp [hEv, hTy, hMsg, hMTy, hLink, hGet, hExp]
  · simp [redeem, hGet, hExp]
  · rw [handleWebhook, hSig]
    simp only [hEv, hTy, hMsg, hMTy, hLink, hGet, hExp]
    cases hr : reply token ev.replyToken
        ("✅ 連携完了しました！\n登録メール: " ++ pr.email) oc <;>
      simp [hr, hTy, hMTy, hLink, hGet, hExp]
  · rw [handleWebhook, hSig]
    simp only [hEv, hTy, hMsg, hMTy, hLink, hGet, hExp]
    cases hr : reply token ev.replyToken
        ("✅ 連携完了しました！\n登録メール: " ++ pr.email) oc <;>
      simp [hr, hTy, hMTy, hLink, hGet, hExp, storeGet_storeSet]

/-- Witness for C10: with a valid pending code and a rejecting store
write, the handler errors out leaving the registry entry in place. -/
theorem redemption_persist_before_delete_witness :
    handleWebhook (some "s") (some "tok")
        ⟨utf8Bytes "wb", some (hmacBase64 "s" (utf8Bytes "wb")),
          [⟨"message", some ⟨"text", "LINK 123456"⟩, "U1", "rt"⟩]⟩
        [("123456", ⟨"a@x.com", 300000⟩)] [] 299999 false .ok =
      ⟨[("123456", ⟨"a@x.com", 300000⟩)], [], [], .error "firebase set rejected"⟩ :=
  (redemption_persist_before_delete (some "s") (some "tok") _ _ [] 299999 .ok
    ⟨"message", some ⟨"text", "LINK 123456"⟩, "U1", "rt"⟩ ⟨"text", "LINK 123456"⟩
    ⟨"a@x.com", 300000⟩ (by decide) (by decide) (by decide) (by decide) (by decide)
    (by decide) (by decide) (by decide)).1

end Suzi
